import Mathlib

/-!
# Verification of the cli-stock-picker workflow engine

A shallow embedding of the repository's workflow engine — the `AgentState`
record threaded through the LangGraph graph, the supervisor router, the
researcher / analyst / human-review workers (`src/agents.py`), and the
provider-snapshot builder (`src/tools.py`) — together with proofs that
settle the specification's claims about routing priority, the human-review
classification protocol, delta monotonicity, failure encoding, and the
snapshot shape.

Conventions of the embedding:
* Python `Optional[str]` fields become `Option String`; Python truthiness of
  an optional string (`None` and `""` are falsy) is `pyStrTruthy`.
* Python dict/list/scalar values that flow through `research_data` and
  through `fetch_stock_data` are the `PyVal` type; numpy scalar wrappers
  (`np.integer`, `np.floating`, `np.ndarray`) are distinct constructors so
  that `_convert_to_native_types` is expressible.  Python float values are
  carried as `Rat`: only their wrapping (numpy vs native), never their
  arithmetic, matters to any claim.
* The external collaborators (yfinance fetch, LLM completion) are function
  parameters returning `Except`, mirroring `raise`/`except` at the worker
  boundary.
* LangGraph's `Command(goto=..., update=...)` is the `Command` structure; a
  node's partial update dict is `Delta`, and `applyDelta` is the engine's
  merge: overwrite per field, except `messages`, whose `add_messages`
  reducer appends fresh-id messages (`src/state.py` annotates `messages`
  with `add_messages` precisely for this append behavior).
-/

/-! ## Python-value model (`src/tools.py` data) -/

/-- A numpy numeric scalar as found inside a numeric `np.ndarray`
(`ndarray.tolist()` turns these into native `int` / `float`). -/
inductive NpNum where
  | i (n : Int)
  | f (q : Rat)
deriving DecidableEq

mutual
/-- A Python value as it flows through `fetch_stock_data` and
`research_data`: native scalars, strings, `None`, numpy wrappers, lists and
string-keyed dicts. -/
inductive PyVal where
  | none
  | int (n : Int)
  | float (q : Rat)
  | str (s : String)
  | bool (b : Bool)
  | npInt (n : Int)
  | npFloat (q : Rat)
  | npArray (elems : List NpNum)
  | list (xs : PyList)
  | dict (entries : PyEntries)

/-- A Python list of `PyVal`s (spelled out so that mutual structural
recursion over the nested values stays primitive). -/
inductive PyList where
  | nil
  | cons (v : PyVal) (rest : PyList)

/-- The entries of a Python dict with string keys, in insertion order. -/
inductive PyEntries where
  | nil
  | cons (key : String) (v : PyVal) (rest : PyEntries)
end

/-- Build a `PyList` from a Lean list. -/
def PyList.ofList : List PyVal → PyList
  | [] => .nil
  | v :: rest => .cons v (PyList.ofList rest)

/-- Length of a `PyList`. -/
def PyList.length : PyList → Nat
  | .nil => 0
  | .cons _ rest => 1 + PyList.length rest

/-- `all` over a `PyList`. -/
def PyList.all : PyList → (PyVal → Bool) → Bool
  | .nil, _ => true
  | .cons v rest, p => p v && PyList.all rest p

/-- `ndarray.tolist()` on a numeric array: every numpy scalar becomes the
corresponding native scalar. -/
def npTolist : List NpNum → PyList
  | [] => .nil
  | .i n :: rest => .cons (.int n) (npTolist rest)
  | .f q :: rest => .cons (.float q) (npTolist rest)

mutual
/-- `_convert_to_native_types` from `src/tools.py`: `np.integer → int`,
`np.floating → float`, `np.ndarray → list` via `tolist()`, and recursion
through dicts and lists; everything else is returned unchanged. -/
def _convert_to_native_types : PyVal → PyVal
  | .npInt n => .int n
  | .npFloat q => .float q
  | .npArray elems => .list (npTolist elems)
  | .list xs => .list (convertNativeList xs)
  | .dict es => .dict (convertNativeEntries es)
  | .none => .none
  | .int n => .int n
  | .float q => .float q
  | .str s => .str s
  | .bool b => .bool b

/-- `_convert_to_native_types` mapped over the items of a list. -/
def convertNativeList : PyList → PyList
  | .nil => .nil
  | .cons v rest => .cons (_convert_to_native_types v) (convertNativeList rest)

/-- `_convert_to_native_types` mapped over the values of a dict. -/
def convertNativeEntries : PyEntries → PyEntries
  | .nil => .nil
  | .cons k v rest => .cons k (_convert_to_native_types v) (convertNativeEntries rest)
end

mutual
/-- No numpy wrapper (`np.integer`, `np.floating`, `np.ndarray`) occurs
anywhere inside the value. -/
def pyNoNumpy : PyVal → Bool
  | .npInt _ => false
  | .npFloat _ => false
  | .npArray _ => false
  | .list xs => pyNoNumpyList xs
  | .dict es => pyNoNumpyEntries es
  | _ => true

/-- `pyNoNumpy` over all items of a list. -/
def pyNoNumpyList : PyList → Bool
  | .nil => true
  | .cons v rest => pyNoNumpy v && pyNoNumpyList rest

/-- `pyNoNumpy` over all values of a dict. -/
def pyNoNumpyEntries : PyEntries → Bool
  | .nil => true
  | .cons _ v rest => pyNoNumpy v && pyNoNumpyEntries rest
end

/-- Python `key in d` on a dict's entries. -/
def entriesHasKey : PyEntries → String → Bool
  | .nil, _ => false
  | .cons k _ rest, key => k == key || entriesHasKey rest key

/-- Python `d.get(key)`: the value under `key`, or `None` when absent. -/
def entriesGet : PyEntries → String → PyVal
  | .nil, _ => .none
  | .cons k v rest, key => if k == key then v else entriesGet rest key

/-- A dict with at least one entry (Python truthiness of a dict). -/
def entriesTruthy : PyEntries → Bool
  | .nil => false
  | .cons _ _ _ => true

/-- Build dict entries from a Lean association list. -/
def entriesOfList : List (String × PyVal) → PyEntries
  | [] => .nil
  | (k, v) :: rest => .cons k v (entriesOfList rest)

/-- Python `key in v` for a value expected to be a dict. -/
def pyHasKey : PyVal → String → Bool
  | .dict es, key => entriesHasKey es key
  | _, _ => false

/-- Python `v[key]` / `v.get(key)` for a value expected to be a dict. -/
def pyGetKey : PyVal → String → PyVal
  | .dict es, key => entriesGet es key
  | _, _ => .none

/-- Python truthiness of a `PyVal` (only the dict / `None` cases are ever
reached by the workers, which test `research_data`). -/
def pyValTruthy : PyVal → Bool
  | .none => false
  | .int n => n != 0
  | .float q => q != 0
  | .str s => !s.isEmpty
  | .bool b => b
  | .npInt n => n != 0
  | .npFloat q => q != 0
  | .npArray elems => !elems.isEmpty
  | .list xs => match xs with | .nil => false | .cons _ _ => true
  | .dict es => entriesTruthy es

/-- Python truthiness of an `Optional` value (`None` is falsy). -/
def pyOptTruthy : Option PyVal → Bool
  | Option.none => false
  | some v => pyValTruthy v

/-- Python `key in opt` guarded by the short-circuit `not opt or key in opt`
the analyst uses; `False` on `None`. -/
def pyOptHasKey : Option PyVal → String → Bool
  | Option.none, _ => false
  | some v, key => pyHasKey v key

/-! ## Python-string helpers -/

/-- The whitespace characters `str.strip()` removes. -/
def pyIsSpace (c : Char) : Bool :=
  c == ' ' || c == '\t' || c == '\n' || c == '\r' || c == '\x0b' || c == '\x0c'

/-- `str.strip()` on the character list: drop leading and trailing
whitespace. -/
def pyStripList (l : List Char) : List Char :=
  ((l.dropWhile pyIsSpace).reverse.dropWhile pyIsSpace).reverse

/-- Python `str.strip()`. -/
def pyStrip (s : String) : String := ⟨pyStripList s.data⟩

/-- Python `str.upper()` (ASCII case map, per character). -/
def pyUpper (s : String) : String := ⟨s.data.map Char.toUpper⟩

/-- Python substring containment `pat in big`, as a proposition on the
underlying character lists. -/
def strContains (big pat : String) : Prop := pat.data <:+: big.data

instance (big pat : String) : Decidable (strContains big pat) :=
  List.decidableInfix pat.data big.data

/-- Python substring containment `pat in big`, as a boolean. -/
def strContainsB (big pat : String) : Bool := decide (strContains big pat)

/-- Python truthiness of an `Optional[str]` (`None` and `""` are falsy). -/
def pyStrTruthy : Option String → Bool
  | Option.none => false
  | some t => !t.isEmpty

/-- Python f-string interpolation of an `Optional[str]`: `None` prints as
`"None"`. -/
def pyOptStr : Option String → String
  | Option.none => "None"
  | some t => t

/-! ## State, deltas, commands (`src/state.py` + LangGraph `Command`) -/

/-- A conversation entry: LangChain's `HumanMessage` / `AIMessage` /
`SystemMessage`, reduced to role plus content. -/
inductive Msg where
  | human (content : String)
  | ai (content : String)
  | system (content : String)
deriving DecidableEq

/-- The routing targets a node's `Command(goto=...)` can name;
`endNode` is LangGraph's `"__end__"` (TERMINATE). -/
inductive Goto where
  | supervisor
  | researcher
  | analyst
  | human_review
  | endNode
deriving DecidableEq

/-- The workflow state as the nodes in `src/agents.py` and the CLI in
`main.py` read and write it: `messages`, `mode` (`"single"` or
`"comparison"`), the single-mode fields `ticker` / `research_data`, the
comparison-mode fields `ticker_a` / `ticker_b` / `research_data_a` /
`research_data_b`, plus `analysis_summary` and `user_decision`.

Note (claim C2): the Pydantic schema in `src/state.py` declares only a
subset of these fields — see `agentStateModelFields` below. -/
structure AgentState where
  messages : List Msg := []
  mode : String := "single"
  ticker : Option String := Option.none
  ticker_a : Option String := Option.none
  ticker_b : Option String := Option.none
  research_data : Option PyVal := Option.none
  research_data_a : Option PyVal := Option.none
  research_data_b : Option PyVal := Option.none
  analysis_summary : Option String := Option.none
  user_decision : Option String := Option.none

/-- A node's partial state update (the `update=` dict of a `Command`): a
field is `some v` exactly when the update dict carries that key.  No node in
`src/agents.py` ever puts an explicit `None` value under one of these keys,
so present-implies-set is faithful. -/
structure Delta where
  messages : List Msg := []
  ticker : Option String := Option.none
  ticker_a : Option String := Option.none
  ticker_b : Option String := Option.none
  research_data : Option PyVal := Option.none
  research_data_a : Option PyVal := Option.none
  research_data_b : Option PyVal := Option.none
  analysis_summary : Option String := Option.none
  user_decision : Option String := Option.none

/-- LangGraph's `Command(goto=..., update=...)` as the nodes return it. -/
structure Command where
  goto : Goto
  update : Delta

/-- Field-wise overwrite merge: a key present in the delta replaces the
stored value, an absent key leaves it. -/
def mergeField {α : Type} (dv sv : Option α) : Option α :=
  match dv with
  | some v => some v
  | Option.none => sv

/-- The engine's merge of one node update into the state: `messages` is
appended (the `add_messages` reducer of `src/state.py` on fresh-id
messages), every other field is overwritten when present. -/
def applyDelta (s : AgentState) (d : Delta) : AgentState :=
  { messages := s.messages ++ d.messages
    mode := s.mode
    ticker := mergeField d.ticker s.ticker
    ticker_a := mergeField d.ticker_a s.ticker_a
    ticker_b := mergeField d.ticker_b s.ticker_b
    research_data := mergeField d.research_data s.research_data
    research_data_a := mergeField d.research_data_a s.research_data_a
    research_data_b := mergeField d.research_data_b s.research_data_b
    analysis_summary := mergeField d.analysis_summary s.analysis_summary
    user_decision := mergeField d.user_decision s.user_decision }

/-- A whole session's worth of node updates, merged in order. -/
def applyDeltas (s : AgentState) (ds : List Delta) : AgentState :=
  ds.foldl applyDelta s

/-! ## The supervisor router (`supervisor_node`, `src/agents.py:19-89`) -/

/-- The router's research-completeness test: in comparison mode both
`research_data_a` and `research_data_b` are non-`None`, otherwise
`research_data` is non-`None`. -/
def researchCompleteB (s : AgentState) : Bool :=
  if s.mode == "comparison" then
    s.research_data_a.isSome && s.research_data_b.isSome
  else
    s.research_data.isSome

/-- `supervisor_node` from `src/agents.py`: the pure routing decision over
the current state, with the message each branch appends. -/
def supervisor_node (s : AgentState) : Command :=
  let is_comparison := s.mode == "comparison"
  let research_complete := researchCompleteB s
  if !research_complete then
    { goto := .researcher
      update := { messages := [.system ("Supervisor: Initiating " ++
        (if is_comparison then "comparison" else "single stock") ++ " research.")] } }
  else if research_complete && !pyStrTruthy s.analysis_summary then
    { goto := .analyst
      update := { messages := [.system "Supervisor: Research complete, analyzing data."] } }
  else if pyStrTruthy s.analysis_summary && !pyStrTruthy s.user_decision then
    { goto := .human_review
      update := { messages := [.system "Supervisor: Analysis ready for human review."] } }
  else
    { goto := .endNode
      update := { messages := [.ai ("Workflow complete. User decision: " ++
        pyOptStr s.user_decision)] } }

/-- The spec's routing rule (§4.3), stated from the spec's own words for
comparison with `supervisor_node`: research empty → research worker, else
analysis empty → analysis worker, else decision empty → human review, else
TERMINATE. -/
def routeRuleSpec (s : AgentState) : Goto :=
  if researchCompleteB s = false then .researcher
  else if pyStrTruthy s.analysis_summary = false then .analyst
  else if pyStrTruthy s.user_decision = false then .human_review
  else .endNode

/-! ## The researcher worker (`researcher_node`, `src/agents.py:92-227`) -/

/-- An error marker as the researcher writes it: the dict
`{"error": error_msg}`. -/
def errMarker (msg : String) : PyVal := .dict (.cons "error" (.str msg) .nil)

/-- Ticker extraction from one human message: uppercase the content, split
on whitespace, take the first word of length at most 5 that `isalpha`. -/
def extractTickerFromMsg (content : String) : Option String :=
  (((pyUpper content).split pyIsSpace).filter (fun w => !w.isEmpty)).find?
    (fun w => w.length ≤ 5 && !w.isEmpty && w.data.all Char.isAlpha)

/-- The researcher's fallback scan: walk the messages in reverse, and from
each `HumanMessage` try to extract a ticker, stopping at the first hit. -/
def extractTickerFromMessages (msgs : List Msg) : Option String :=
  msgs.reverse.findSome? (fun m =>
    match m with
    | .human c => extractTickerFromMsg c
    | _ => Option.none)

/-- The ticker `_research_single` ends up using: `state.ticker` when truthy,
otherwise the scan over the messages. -/
def resolveTicker (s : AgentState) : Option String :=
  if pyStrTruthy s.ticker then s.ticker else extractTickerFromMessages s.messages

/-- The researcher's message when no ticker could be identified. -/
def noTickerMsg : String :=
  "Could not identify stock ticker. Please specify a ticker symbol (e.g., AAPL)."

/-- `_research_single` from `src/agents.py`: resolve the ticker, call the
data-fetch collaborator, and return to the supervisor — encoding a fetch
failure as an `{"error": ...}` marker in `research_data` rather than
rethrowing.  `fetch` is the yfinance collaborator (`fetch_stock_data`),
`fmt` is `format_research_summary`. -/
def _research_single (fetch : String → Except String PyVal) (fmt : PyVal → String)
    (s : AgentState) : Command :=
  let ticker := resolveTicker s
  if !pyStrTruthy ticker then
    { goto := .supervisor
      update := { messages := [.ai noTickerMsg]
                  research_data := some (errMarker noTickerMsg) } }
  else
    match fetch (ticker.getD "") with
    | .ok research_data =>
      { goto := .supervisor
        update := { ticker := ticker
                    research_data := some research_data
                    messages := [.ai ("Research complete for " ++ ticker.getD "" ++
                      ". Key data collected:\n" ++ fmt research_data)] } }
    | .error e =>
      { goto := .supervisor
        update := { messages := [.ai ("Research failed: " ++ e)]
                    research_data := some (errMarker ("Research failed: " ++ e)) } }

/-- The researcher's message when comparison mode lacks a ticker. -/
def cmpTickerMsg : String :=
  "Comparison mode requires two ticker symbols (ticker_a and ticker_b)."

/-- `_research_comparison` from `src/agents.py`: fetch both tickers
sequentially inside one `try`; any failure writes the error marker into
both research fields.  `fmtCmp` is `format_comparison_summary`. -/
def _research_comparison (fetch : String → Except String PyVal)
    (fmtCmp : PyVal → PyVal → String) (s : AgentState) : Command :=
  if !pyStrTruthy s.ticker_a || !pyStrTruthy s.ticker_b then
    { goto := .supervisor
      update := { messages := [.ai cmpTickerMsg]
                  research_data_a := some (errMarker cmpTickerMsg)
                  research_data_b := some (errMarker cmpTickerMsg) } }
  else
    match fetch (s.ticker_a.getD "") with
    | .error e =>
      { goto := .supervisor
        update := { messages := [.ai ("Research failed: " ++ e)]
                    research_data_a := some (errMarker ("Research failed: " ++ e))
                    research_data_b := some (errMarker ("Research failed: " ++ e)) } }
    | .ok research_data_a =>
      match fetch (s.ticker_b.getD "") with
      | .error e =>
        { goto := .supervisor
          update := { messages := [.ai ("Research failed: " ++ e)]
                      research_data_a := some (errMarker ("Research failed: " ++ e))
                      research_data_b := some (errMarker ("Research failed: " ++ e)) } }
      | .ok research_data_b =>
        { goto := .supervisor
          update := { ticker_a := s.ticker_a
                      ticker_b := s.ticker_b
                      research_data_a := some research_data_a
                      research_data_b := some research_data_b
                      messages := [.ai ("Research complete for " ++ s.ticker_a.getD "" ++
                        " vs " ++ s.ticker_b.getD "" ++ ". Comparison data collected:\n" ++
                        fmtCmp research_data_a research_data_b)] } }

/-- `researcher_node` from `src/agents.py`: dispatch on the mode. -/
def researcher_node (fetch : String → Except String PyVal) (fmt : PyVal → String)
    (fmtCmp : PyVal → PyVal → String) (s : AgentState) : Command :=
  if s.mode == "comparison" then _research_comparison fetch fmtCmp s
  else _research_single fetch fmt s

/-! ## The analyst worker (`analyst_node`, `src/agents.py:230-401`) -/

/-- The analyst's fixed system prompt for a single stock. -/
def analystSystemPrompt : String :=
  "You are an expert financial analyst. Analyze the provided stock research data and provide:\n\n1. Investment Recommendation: BUY, HOLD, or SELL\n2. Confidence Level: High, Medium, or Low\n3. Key Rationale: 3-5 bullet points explaining your recommendation\n4. Risk Factors: 2-3 potential concerns\n5. Price Target: 6-month price estimate\n\nBe objective, data-driven, and clearly explain your reasoning. Format your response clearly."

/-- The analyst's user prompt around the research summary. -/
def analystUserPrompt (research_summary : String) : String :=
  "Analyze this stock research and provide your investment recommendation:\n\n" ++
  research_summary ++
  "\n\nProvide a comprehensive investment analysis following the structured format."

/-- `_analyze_single` from `src/agents.py`: refuse when `research_data` is
missing or carries an `"error"` key (returning only a message, without
setting `analysis_summary`); otherwise call the LLM collaborator, encoding
a completion failure as a message — again without `analysis_summary`.
`llm systemPrompt userPrompt` models `create_llm(...).invoke(...)`. -/
def _analyze_single (llm : String → String → Except String String)
    (fmt : PyVal → String) (s : AgentState) : Command :=
  if !pyOptTruthy s.research_data || pyOptHasKey s.research_data "error" then
    { goto := .supervisor
      update := { messages := [.ai "Cannot analyze: No valid research data available."] } }
  else
    let research_summary := fmt (s.research_data.getD .none)
    match llm analystSystemPrompt (analystUserPrompt research_summary) with
    | .ok analysis =>
      { goto := .supervisor
        update := { analysis_summary := some analysis
                    messages := [.ai ("Investment Analysis for " ++ pyOptStr s.ticker ++
                      ":\n\n" ++ analysis)] } }
    | .error e =>
      { goto := .supervisor
        update := { messages := [.ai ("Analysis failed: " ++ e)] } }

/-- The analyst's fixed system prompt for a comparison. -/
def comparisonSystemPrompt : String :=
  "You are an expert financial analyst specializing in comparative stock analysis. Analyze the two stocks and provide:\n\n1. **Winner Pick**: Which stock is the better investment right now and why (one clear choice)\n2. **Head-to-Head Analysis**: Compare the two stocks across key dimensions:\n   - Valuation (P/E, PEG, forward P/E)\n   - Growth prospects (revenue growth, earnings trends)\n   - Financial health (margins, balance sheet strength)\n   - Risk profile (beta, volatility)\n3. **Key Differentiators**: 3-4 factors that most distinguish these two investments\n4. **Risk Factors for Each**: 2-3 specific concerns for each stock\n5. **Investment Scenarios**: When would you prefer Stock A over Stock B, and vice versa?\n\nBe objective, data-driven, and clearly explain your reasoning. Make a definitive recommendation."

/-- The comparison user prompt around the comparison summary. -/
def comparisonUserPrompt (comparison_summary : String) : String :=
  "Compare these two stocks and determine which is the better investment:\n\n" ++
  comparison_summary ++
  "\n\nProvide a comprehensive head-to-head analysis and pick a winner."

/-- `_analyze_comparison` from `src/agents.py`. -/
def _analyze_comparison (llm : String → String → Except String String)
    (fmtCmp : PyVal → PyVal → String) (s : AgentState) : Command :=
  if !pyOptTruthy s.research_data_a || pyOptHasKey s.research_data_a "error" then
    { goto := .supervisor
      update := { messages := [.ai ("Cannot analyze: No valid research data for " ++
        pyOptStr s.ticker_a ++ ".")] } }
  else if !pyOptTruthy s.research_data_b || pyOptHasKey s.research_data_b "error" then
    { goto := .supervisor
      update := { messages := [.ai ("Cannot analyze: No valid research data for " ++
        pyOptStr s.ticker_b ++ ".")] } }
  else
    let comparison_summary := fmtCmp (s.research_data_a.getD .none) (s.research_data_b.getD .none)
    match llm comparisonSystemPrompt (comparisonUserPrompt comparison_summary) with
    | .ok analysis =>
      { goto := .supervisor
        update := { analysis_summary := some analysis
                    messages := [.ai ("Comparative Analysis: " ++ pyOptStr s.ticker_a ++
                      " vs " ++ pyOptStr s.ticker_b ++ ":\n\n" ++ analysis)] } }
    | .error e =>
      { goto := .supervisor
        update := { messages := [.ai ("Analysis failed: " ++ e)] } }

/-- `analyst_node` from `src/agents.py`: dispatch on the mode. -/
def analyst_node (llm : String → String → Except String String) (fmt : PyVal → String)
    (fmtCmp : PyVal → PyVal → String) (s : AgentState) : Command :=
  if s.mode == "comparison" then _analyze_comparison llm fmtCmp s
  else _analyze_single llm fmt s

/-! ## The human-review worker (`human_review_node`, `src/agents.py:404-469`) -/

/-- The closing instruction block of the review prompt. -/
def reviewInstructions : String :=
  "\n\n---\n\nDo you approve this investment recommendation?\nPlease respond with:\n- \x27APPROVE\x27 to accept the recommendation\n- \x27REJECT\x27 to decline the recommendation\n- Or provide specific feedback\n"

/-- The suspension payload `human_review_node` hands to `interrupt()`:
header from the mode and ticker(s), then the analysis summary, then the
instruction text. -/
def humanReviewPrompt (s : AgentState) : String :=
  let header :=
    if s.mode == "comparison" then
      "Comparison: " ++ pyOptStr s.ticker_a ++ " vs " ++ pyOptStr s.ticker_b
    else
      "Analysis: " ++ pyOptStr s.ticker
  "\n### " ++ header ++ "\n\n" ++ pyOptStr s.analysis_summary ++ reviewInstructions

/-- The suspension step of `human_review_node`: `interrupt(prompt)` hands
the payload to the caller while the engine checkpoints the incoming state
unchanged — no update is emitted at the suspension point (the `Command` is
only built after the resume value arrives). -/
def humanReviewSuspend (s : AgentState) : String × AgentState :=
  (humanReviewPrompt s, s)

/-- The resume half of `human_review_node` from `src/agents.py`: classify
`user_input` (after `strip().upper()`) by substring — `APPROVE` first, then
`REJECT`, else FEEDBACK — and return to the supervisor with
`user_decision` set and the raw input plus a confirmation appended. -/
def human_review_node (s : AgentState) (user_input : String) : Command :=
  let _ := humanReviewPrompt s
  let decision := pyUpper (pyStrip user_input)
  if strContainsB decision "APPROVE" then
    { goto := .supervisor
      update := { user_decision := some "APPROVED"
                  messages := [.human user_input,
                    .ai "Thank you! The investment recommendation has been approved."] } }
  else if strContainsB decision "REJECT" then
    { goto := .supervisor
      update := { user_decision := some "REJECTED"
                  messages := [.human user_input,
                    .ai "Understood. The investment recommendation has been rejected."] } }
  else
    { goto := .supervisor
      update := { user_decision := some "FEEDBACK"
                  messages := [.human user_input,
                    .ai ("Thank you for your feedback: " ++ user_input)] } }

/-! ## The data-fetch collaborator (`fetch_stock_data`, `src/tools.py`) -/

/-- One formatted news item: the dict `{"title": ..., "publisher": ...,
"link": ...}` built from one article of `stock.news`. -/
def newsItemDict (article : PyEntries) : PyVal :=
  .dict (entriesOfList [
    ("title", entriesGet article "title"),
    ("publisher", entriesGet article "publisher"),
    ("link", entriesGet article "link")])

/-- `fetch_stock_data` from `src/tools.py`, with the provider's raw replies
as parameters: `info` is `stock.info`, `histLen` the number of rows of the
90-day history, `ret90` / `vol` / `avg` the three pandas-computed float
statistics (np.float64 in Python, hence wrapped `npFloat` here), and `news`
the articles of `stock.news` (the code slices the first 5; a provider
failure while reading news corresponds to `news = []`).  An invalid ticker
(no `regularMarketPrice` in a truthy `info`) raises `ValueError`, re-raised
by the outer handler with the `Failed to fetch data` prefix. -/
def fetch_stock_data (ticker : String) (info : PyEntries) (histLen : Nat)
    (ret90 vol avg : Rat) (news : List PyEntries) (fetchTs : String) :
    Except String PyVal :=
  if !entriesTruthy info || !entriesHasKey info "regularMarketPrice" then
    .error ("Failed to fetch data for " ++ ticker ++ ": Invalid ticker symbol: " ++ ticker)
  else
    let price_data : PyVal := .dict (entriesOfList [
      ("current_price", entriesGet info "regularMarketPrice"),
      ("previous_close", entriesGet info "previousClose"),
      ("day_high", entriesGet info "dayHigh"),
      ("day_low", entriesGet info "dayLow"),
      ("52_week_high", entriesGet info "fiftyTwoWeekHigh"),
      ("52_week_low", entriesGet info "fiftyTwoWeekLow"),
      ("volume", entriesGet info "volume"),
      ("avg_volume", entriesGet info "averageVolume")])
    let fundamentals : PyVal := .dict (entriesOfList [
      ("market_cap", entriesGet info "marketCap"),
      ("pe_ratio", entriesGet info "trailingPE"),
      ("forward_pe", entriesGet info "forwardPE"),
      ("peg_ratio", entriesGet info "pegRatio"),
      ("dividend_yield", entriesGet info "dividendYield"),
      ("beta", entriesGet info "beta"),
      ("eps", entriesGet info "trailingEps"),
      ("profit_margin", entriesGet info "profitMargins"),
      ("revenue_growth", entriesGet info "revenueGrowth")])
    let company_info : PyVal := .dict (entriesOfList [
      ("name", entriesGet info "longName"),
      ("sector", entriesGet info "sector"),
      ("industry", entriesGet info "industry"),
      ("description", entriesGet info "longBusinessSummary"),
      ("website", entriesGet info "website")])
    let historical_data : PyVal := .dict (entriesOfList [
      ("90_day_return", if histLen > 0 then .npFloat ret90 else .none),
      ("volatility", if histLen > 1 then .npFloat vol else .none),
      ("avg_price_90d", if histLen > 0 then .npFloat avg else .none)])
    let news_items : PyVal := .list (PyList.ofList ((news.take 5).map newsItemDict))
    let result : PyVal := .dict (entriesOfList [
      ("ticker", .str (pyUpper ticker)),
      ("fetch_timestamp", .str fetchTs),
      ("company_info", company_info),
      ("price_data", price_data),
      ("fundamentals", fundamentals),
      ("historical_data", historical_data),
      ("news", news_items)])
    .ok (_convert_to_native_types result)

/-! ## The declared Pydantic schema (`src/state.py:14-52`) -/

/-- The fields the Pydantic `AgentState` model in `src/state.py` actually
declares. -/
def agentStateModelFields : List String :=
  ["messages", "ticker", "research_data", "analysis_summary", "user_decision"]

/-- The fields the spec's data model additionally requires for comparison
mode, all of which `src/agents.py` and `main.py` read or write on the
state. -/
def comparisonModeFields : List String :=
  ["mode", "ticker_a", "ticker_b", "research_data_a", "research_data_b"]

/-! ## Basic merge lemmas -/

theorem mergeFieldIsSome {α : Type} (dv sv : Option α) (h : sv.isSome = true) :
    (mergeField dv sv).isSome = true := by
  cases dv
  · exact h
  · rfl

theorem applyDeltas_cons (s : AgentState) (d : Delta) (ds : List Delta) :
    applyDeltas s (d :: ds) = applyDeltas (applyDelta s d) ds := rfl

/-! ## Claim theorems: router shape and schema -/

/-- C3: for every state, the router's decision follows the spec's fixed
priority order — research incomplete → researcher, else no analysis →
analyst, else no decision → human review, else TERMINATE. -/
theorem C3_router_priority (s : AgentState) :
    (supervisor_node s).goto = routeRuleSpec s := by
  cases h1 : researchCompleteB s <;>
    cases h2 : pyStrTruthy s.analysis_summary <;>
      cases h3 : pyStrTruthy s.user_decision <;>
        simp [supervisor_node, routeRuleSpec, h1, h2, h3]

/-- C8: the router is a pure function of the state value — equal states
yield equal decisions, and in particular a TERMINATE decision repeats on
the unchanged terminal state. -/
theorem C8_router_deterministic (s t : AgentState) (h : s = t) :
    supervisor_node s = supervisor_node t ∧
    ((supervisor_node s).goto = Goto.endNode → (supervisor_node t).goto = Goto.endNode) := by
  subst h
  exact ⟨rfl, fun hh => hh⟩

/-- A terminal state: research, analysis and decision all present. -/
def terminalState : AgentState :=
  { messages := [.human "Analyze stock AAPL"]
    mode := "single"
    ticker := some "AAPL"
    research_data := some (.dict (.cons "ticker" (.str "AAPL") .nil))
    analysis_summary := some "BUY with high confidence."
    user_decision := some "APPROVED" }

/-- Witness for C8 at a concrete terminal state. -/
theorem C8_router_deterministic_witness :
    supervisor_node terminalState = supervisor_node terminalState ∧
    ((supervisor_node terminalState).goto = Goto.endNode →
      (supervisor_node terminalState).goto = Goto.endNode) :=
  C8_router_deterministic terminalState terminalState rfl

/-- C2 (divergence record): none of the mode / comparison fields the spec's
data model requires — and that `src/agents.py` reads on every state — is
declared by the Pydantic `AgentState` model of `src/state.py`. -/
theorem C2_schema_lacks_comparison_fields :
    comparisonModeFields.all (fun f => !(agentStateModelFields.contains f)) = true := by
  decide

/-! ## Claim C6: monotonicity under engine merges -/

/-- C6: across any sequence of worker deltas merged by the engine, the
message log only grows at the end (the old log is a prefix of the new one,
so entries are never dropped, replaced or reordered, and the length never
decreases), and `analysis_summary` / `user_decision` never revert from set
to unset. -/
theorem C6_monotonic_merge (s : AgentState) (ds : List Delta) :
    s.messages <+: (applyDeltas s ds).messages ∧
    s.messages.length ≤ (applyDeltas s ds).messages.length ∧
    (s.analysis_summary.isSome = true → (applyDeltas s ds).analysis_summary.isSome = true) ∧
    (s.user_decision.isSome = true → (applyDeltas s ds).user_decision.isSome = true) := by
  induction ds generalizing s with
  | nil =>
    exact ⟨List.prefix_rfl, Nat.le_refl _, fun h => h, fun h => h⟩
  | cons d ds ih =>
    obtain ⟨hpre, hlen, hana, hdec⟩ := ih (applyDelta s d)
    rw [applyDeltas_cons]
    refine ⟨?_, ?_, ?_, ?_⟩
    · exact List.IsPrefix.trans (List.prefix_append s.messages d.messages) hpre
    · exact Nat.le_trans (by simp [applyDelta]) hlen
    · intro h
      exact hana (mergeFieldIsSome _ _ h)
    · intro h
      exact hdec (mergeFieldIsSome _ _ h)

/-- A concrete state mid-session, for the C6 witness. -/
def wMonoState : AgentState :=
  { messages := [.human "Analyze stock AAPL"]
    mode := "single"
    ticker := some "AAPL"
    analysis_summary := some "HOLD."
    user_decision := some "APPROVED" }

/-- Two concrete worker deltas, for the C6 witness. -/
def wMonoDeltas : List Delta :=
  [{ messages := [.system "Supervisor: Analysis ready for human review."] },
   { user_decision := some "FEEDBACK"
     messages := [.human "more detail please", .ai "Thank you for your feedback: more detail please"] }]

/-- Witness for C6 on a concrete state and delta sequence. -/
theorem C6_monotonic_merge_witness :
    wMonoState.messages <+: (applyDeltas wMonoState wMonoDeltas).messages ∧
    (applyDeltas wMonoState wMonoDeltas).analysis_summary.isSome = true ∧
    (applyDeltas wMonoState wMonoDeltas).user_decision.isSome = true := by
  have h := C6_monotonic_merge wMonoState wMonoDeltas
  exact ⟨h.1, h.2.2.1 (by decide), h.2.2.2 (by decide)⟩

/-! ## Claim C1: the error-marker live-lock (Scenario B) -/

/-- The state after a failed single-stock research step (Scenario B, bad
ticker): `research_data` holds the error marker, `analysis_summary` is
still empty. -/
def erroredState : AgentState :=
  { messages := [.human "Analyze stock ZZZZZZZ"]
    mode := "single"
    ticker := some "ZZZZZZZ"
    research_data := some (errMarker
      "Research failed: Failed to fetch data for ZZZZZZZ: Invalid ticker symbol: ZZZZZZZ") }

/-- One engine round between router and analysis worker: the supervisor's
update is merged, the analyst runs on the result, and its update is
merged. -/
def analystCycle (llm : String → String → Except String String)
    (fmt : PyVal → String) (s : AgentState) : AgentState :=
  let s₁ := applyDelta s (supervisor_node s).update
  applyDelta s₁ (_analyze_single llm fmt s₁).update

/-- On a state whose `research_data` is an error marker and whose
`analysis_summary` is empty, the router picks the analyst, and one full
router–analyst round preserves exactly that situation. -/
theorem analystCycle_stuck (llm : String → String → Except String String)
    (fmt : PyVal → String) (s : AgentState) (eMsg : String)
    (hm : s.mode = "single") (hr : s.research_data = some (errMarker eMsg))
    (ha : s.analysis_summary = Option.none) :
    (supervisor_node s).goto = Goto.analyst ∧
    (analystCycle llm fmt s).mode = "single" ∧
    (analystCycle llm fmt s).research_data = some (errMarker eMsg) ∧
    (analystCycle llm fmt s).analysis_summary = Option.none := by
  have hsup : supervisor_node s =
      { goto := .analyst
        update := { messages := [.system "Supervisor: Research complete, analyzing data."] } } := by
    simp [supervisor_node, researchCompleteB, hm, hr, ha, pyStrTruthy]
  have hs₁ : applyDelta s (supervisor_node s).update = { s with
      messages := s.messages ++ [.system "Supervisor: Research complete, analyzing data."] } := by
    rw [hsup]
    simp [applyDelta, mergeField]
  have hana : _analyze_single llm fmt (applyDelta s (supervisor_node s).update) =
      { goto := .supervisor
        update := { messages := [.ai "Cannot analyze: No valid research data available."] } } := by
    rw [hs₁]
    simp [_analyze_single, hr, pyOptTruthy, pyOptHasKey, pyValTruthy, pyHasKey,
      entriesHasKey, entriesTruthy, errMarker]
  have hcycle : analystCycle llm fmt s =
      applyDelta (applyDelta s (supervisor_node s).update)
        (_analyze_single llm fmt (applyDelta s (supervisor_node s).update)).update := rfl
  refine ⟨by rw [hsup], ?_, ?_, ?_⟩ <;>
    · rw [hcycle, hana, hs₁]
      simp [applyDelta, mergeField, hm, hr, ha]

/-- The round-by-round invariant of the live-lock: after any number of
router–analyst rounds from `erroredState`, the error marker is still in
`research_data` and `analysis_summary` is still empty. -/
theorem analystCycle_invariant (llm : String → String → Except String String)
    (fmt : PyVal → String) (n : Nat) :
    ((analystCycle llm fmt)^[n] erroredState).mode = "single" ∧
    ((analystCycle llm fmt)^[n] erroredState).research_data = some (errMarker
      "Research failed: Failed to fetch data for ZZZZZZZ: Invalid ticker symbol: ZZZZZZZ") ∧
    ((analystCycle llm fmt)^[n] erroredState).analysis_summary = Option.none := by
  induction n with
  | zero => exact ⟨rfl, rfl, rfl⟩
  | succ n ih =>
    obtain ⟨hm, hr, ha⟩ := ih
    have h := analystCycle_stuck llm fmt _ _ hm hr ha
    rw [Function.iterate_succ_apply']
    exact ⟨h.2.1, h.2.2.1, h.2.2.2⟩

/-- C1 (refutation record): from the errored state the claim is about, the
router routes to the analysis worker — not TERMINATE — at every round, the
round repeats forever with `analysis_summary` never set, and no round ever
reaches TERMINATE: the observed behavior is the live-lock, not the
claimed error-surfacing termination. -/
theorem C1_error_marker_livelock (llm : String → String → Except String String)
    (fmt : PyVal → String) (n : Nat) :
    (supervisor_node ((analystCycle llm fmt)^[n] erroredState)).goto = Goto.analyst ∧
    ((analystCycle llm fmt)^[n] erroredState).analysis_summary = Option.none ∧
    (supervisor_node ((analystCycle llm fmt)^[n] erroredState)).goto ≠ Goto.endNode := by
  obtain ⟨hm, hr, ha⟩ := analystCycle_invariant llm fmt n
  have h := analystCycle_stuck llm fmt _ _ hm hr ha
  refine ⟨h.1, ha, ?_⟩
  rw [h.1]
  intro hcontr
  exact Goto.noConfusion hcontr

/-! ## String-containment helpers -/

theorem strDataAppend (a b : String) : (a ++ b).data = a.data ++ b.data := by
  cases a
  cases b
  rfl

theorem strContainsRefl (x : String) : strContains x x :=
  ⟨[], [], by simp⟩

theorem strContainsAppendRight (a b x : String) (h : strContains b x) :
    strContains (a ++ b) x :=
  List.IsInfix.trans h ⟨a.data, [], by simp [strDataAppend]⟩

theorem strContainsAppendLeft (a b x : String) (h : strContains a x) :
    strContains (a ++ b) x :=
  List.IsInfix.trans h ⟨[], b.data, by simp [strDataAppend]⟩

theorem strContainsTrans (big mid x : String) (h1 : strContains big mid)
    (h2 : strContains mid x) : strContains big x :=
  List.IsInfix.trans h2 h1

/-! ## Claim C5: suspend / resume round trip -/

/-- C5: the suspension step yields exactly the prompt as payload and the
unchanged state — in particular `user_decision` is not mutated — the
payload textually contains the analysis summary and the ticker(s) of the
mode, and resuming with `"APPROVE"` merges a delta that sets
`user_decision = APPROVED` while leaving `analysis_summary` at its
pre-suspend value. -/
theorem C5_suspend_resume (s : AgentState) :
    (humanReviewSuspend s).2 = s ∧
    (humanReviewSuspend s).2.user_decision = s.user_decision ∧
    strContains (humanReviewSuspend s).1 (pyOptStr s.analysis_summary) ∧
    (if s.mode == "comparison" then
       strContains (humanReviewSuspend s).1 (pyOptStr s.ticker_a) ∧
       strContains (humanReviewSuspend s).1 (pyOptStr s.ticker_b)
     else
       strContains (humanReviewSuspend s).1 (pyOptStr s.ticker)) ∧
    (applyDelta s (human_review_node s "APPROVE").update).user_decision = some "APPROVED" ∧
    (applyDelta s (human_review_node s "APPROVE").update).analysis_summary = s.analysis_summary := by
  have hA : strContainsB (pyUpper (pyStrip "APPROVE")) "APPROVE" = true := by decide
  have hresume : human_review_node s "APPROVE" =
      { goto := .supervisor
        update := { user_decision := some "APPROVED"
                    messages := [.human "APPROVE",
                      .ai "Thank you! The investment recommendation has been approved."] } } := by
    simp [human_review_node, hA]
  refine ⟨rfl, rfl, ?_, ?_, ?_, ?_⟩
  · cases h : s.mode == "comparison" <;>
      · show strContains (humanReviewPrompt s) (pyOptStr s.analysis_summary)
        have hp : humanReviewPrompt s =
            "\n### " ++ (if s.mode == "comparison" then
              "Comparison: " ++ pyOptStr s.ticker_a ++ " vs " ++ pyOptStr s.ticker_b
            else "Analysis: " ++ pyOptStr s.ticker) ++ "\n\n" ++
            pyOptStr s.analysis_summary ++ reviewInstructions := rfl
        rw [hp]
        exact strContainsAppendLeft _ _ _
          (strContainsAppendRight _ _ _ (strContainsRefl _))
  · cases h : s.mode == "comparison"
    · simp only [h, Bool.false_eq_true, if_false]
      show strContains (humanReviewPrompt s) (pyOptStr s.ticker)
      have hp : humanReviewPrompt s =
          "\n### " ++ ("Analysis: " ++ pyOptStr s.ticker) ++ "\n\n" ++
          pyOptStr s.analysis_summary ++ reviewInstructions := by
        simp [humanReviewPrompt, h]
      rw [hp]
      have hhdr : strContains ("Analysis: " ++ pyOptStr s.ticker) (pyOptStr s.ticker) :=
        strContainsAppendRight _ _ _ (strContainsRefl _)
      have hbig : strContains ("\n### " ++ ("Analysis: " ++ pyOptStr s.ticker) ++ "\n\n" ++
          pyOptStr s.analysis_summary ++ reviewInstructions)
          ("Analysis: " ++ pyOptStr s.ticker) :=
        strContainsAppendLeft _ _ _ (strContainsAppendLeft _ _ _
          (strContainsAppendLeft _ _ _ (strContainsAppendRight _ _ _ (strContainsRefl _))))
      exact strContainsTrans _ _ _ hbig hhdr
    · simp only [h, if_true]
      have hhdrval : (if s.mode == "comparison" then
          "Comparison: " ++ pyOptStr s.ticker_a ++ " vs " ++ pyOptStr s.ticker_b
        else "Analysis: " ++ pyOptStr s.ticker) =
          "Comparison: " ++ pyOptStr s.ticker_a ++ " vs " ++ pyOptStr s.ticker_b := by
        rw [h]
        rfl
      have hp : humanReviewPrompt s =
          "\n### " ++ ("Comparison: " ++ pyOptStr s.ticker_a ++ " vs " ++ pyOptStr s.ticker_b) ++
          "\n\n" ++ pyOptStr s.analysis_summary ++ reviewInstructions := by
        show "\n### " ++ (if s.mode == "comparison" then
            "Comparison: " ++ pyOptStr s.ticker_a ++ " vs " ++ pyOptStr s.ticker_b
          else "Analysis: " ++ pyOptStr s.ticker) ++ "\n\n" ++
          pyOptStr s.analysis_summary ++ reviewInstructions = _
        rw [hhdrval]
      have hbig : strContains (humanReviewPrompt s)
          ("Comparison: " ++ pyOptStr s.ticker_a ++ " vs " ++ pyOptStr s.ticker_b) := by
        rw [hp]
        exact strContainsAppendLeft _ _ _ (strContainsAppendLeft _ _ _
          (strContainsAppendLeft _ _ _ (strContainsAppendRight _ _ _ (strContainsRefl _))))
      constructor
      · exact strContainsTrans _ _ _ hbig
          (strContainsAppendLeft _ _ _ (strContainsAppendLeft _ _ _
            (strContainsAppendRight _ _ _ (strContainsRefl _))))
      · exact strContainsTrans _ _ _ hbig
          (strContainsAppendRight _ _ _ (strContainsRefl _))
  · rw [hresume]
    simp [applyDelta, mergeField]
  · rw [hresume]
    simp [applyDelta, mergeField]

/-! ## Claim C7: collaborator failures are encoded, never rethrown -/

/-- C7: a data-fetch failure is caught inside the research worker and
encoded as an `{"error": ...}` marker in the `research_data` of the delta
it returns, with control going back to the supervisor; an LLM completion
failure is caught inside the analysis worker and encoded as a message
appended to `messages` with `analysis_summary` left unset, again returning
control to the supervisor.  Both workers stay total functions: no exception
crosses the worker boundary. -/
theorem C7_failures_encoded (fetch : String → Except String PyVal) (fmt : PyVal → String)
    (llm : String → String → Except String String) (s₁ s₂ : AgentState)
    (t e₁ e₂ : String) (d : PyVal)
    (hticker : resolveTicker s₁ = some t) (htr : pyStrTruthy (some t) = true)
    (hfetch : fetch t = .error e₁)
    (hdata : s₂.research_data = some d) (hvalid : pyValTruthy d = true)
    (hnoerr : pyHasKey d "error" = false)
    (hllm : ∀ sp up, llm sp up = .error e₂) :
    _research_single fetch fmt s₁ =
      { goto := .supervisor
        update := { messages := [.ai ("Research failed: " ++ e₁)]
                    research_data := some (errMarker ("Research failed: " ++ e₁)) } } ∧
    _analyze_single llm fmt s₂ =
      { goto := .supervisor
        update := { messages := [.ai ("Analysis failed: " ++ e₂)] } } := by
  constructor
  · unfold _research_single
    rw [hticker]
    simp only [htr, Bool.not_true, Bool.false_eq_true, if_false, Option.getD_some, hfetch]
  · unfold _analyze_single
    rw [hdata]
    simp only [pyOptTruthy, hvalid, Bool.not_true, pyOptHasKey, hnoerr, Bool.or_self,
      Bool.false_eq_true, if_false, hllm]

/-- A state whose ticker is set, for the C7 witness. -/
def wFetchFailState : AgentState :=
  { messages := [.human "Analyze stock AAPL"]
    mode := "single"
    ticker := some "AAPL" }

/-- A state with valid research data, for the C7 witness. -/
def wLlmFailState : AgentState :=
  { messages := [.human "Analyze stock AAPL"]
    mode := "single"
    ticker := some "AAPL"
    research_data := some (.dict (.cons "ticker" (.str "AAPL") .nil)) }

/-- Witness for C7: a concrete always-failing fetch and a concrete
always-failing LLM, each encoded into the returned delta. -/
theorem C7_failures_encoded_witness :
    _research_single (fun _ => .error "upstream outage") (fun _ => "") wFetchFailState =
      { goto := .supervisor
        update := { messages := [.ai "Research failed: upstream outage"]
                    research_data := some (errMarker "Research failed: upstream outage") } } ∧
    _analyze_single (fun _ _ => .error "completion unavailable") (fun _ => "") wLlmFailState =
      { goto := .supervisor
        update := { messages := [.ai "Analysis failed: completion unavailable"] } } :=
  C7_failures_encoded (fun _ => .error "upstream outage") (fun _ => "")
    (fun _ _ => .error "completion unavailable") wFetchFailState wLlmFailState
    "AAPL" "upstream outage" "completion unavailable" (.dict (.cons "ticker" (.str "AAPL") .nil))
    rfl rfl rfl rfl rfl rfl (fun _ _ => rfl)

/-! ## Claim C9: snapshot shape and native numeric types -/

/-- `tolist()` output carries no numpy wrapper. -/
theorem npTolistNoNumpy : ∀ elems : List NpNum, pyNoNumpyList (npTolist elems) = true
  | [] => rfl
  | .i n :: rest => by
    show (pyNoNumpy (.int n) && pyNoNumpyList (npTolist rest)) = true
    rw [npTolistNoNumpy rest]
    rfl
  | .f q :: rest => by
    show (pyNoNumpy (.float q) && pyNoNumpyList (npTolist rest)) = true
    rw [npTolistNoNumpy rest]
    rfl

mutual
/-- `_convert_to_native_types` leaves no numpy wrapper anywhere in its
output. -/
theorem pyNoNumpyConvert : ∀ v : PyVal, pyNoNumpy (_convert_to_native_types v) = true
  | .none => rfl
  | .int _ => rfl
  | .float _ => rfl
  | .str _ => rfl
  | .bool _ => rfl
  | .npInt _ => rfl
  | .npFloat _ => rfl
  | .npArray elems => npTolistNoNumpy elems
  | .list xs => pyNoNumpyConvertList xs
  | .dict es => pyNoNumpyConvertEntries es

/-- `pyNoNumpyConvert` over list items. -/
theorem pyNoNumpyConvertList : ∀ xs : PyList, pyNoNumpyList (convertNativeList xs) = true
  | .nil => rfl
  | .cons v rest => by
    show (pyNoNumpy (_convert_to_native_types v) &&
      pyNoNumpyList (convertNativeList rest)) = true
    rw [pyNoNumpyConvert v, pyNoNumpyConvertList rest]
    rfl

/-- `pyNoNumpyConvert` over dict values. -/
theorem pyNoNumpyConvertEntries : ∀ es : PyEntries, pyNoNumpyEntries (convertNativeEntries es) = true
  | .nil => rfl
  | .cons _ v rest => by
    show (pyNoNumpy (_convert_to_native_types v) &&
      pyNoNumpyEntries (convertNativeEntries rest)) = true
    rw [pyNoNumpyConvert v, pyNoNumpyConvertEntries rest]
    rfl
end

theorem convertNativeListLength : ∀ xs : PyList,
    (convertNativeList xs).length = xs.length
  | .nil => rfl
  | .cons v rest => by
    show 1 + (convertNativeList rest).length = 1 + rest.length
    rw [convertNativeListLength rest]

theorem ofListLength : ∀ l : List PyVal, (PyList.ofList l).length = l.length
  | [] => rfl
  | v :: rest => by
    show 1 + (PyList.ofList rest).length = rest.length + 1
    rw [ofListLength rest, Nat.add_comm]

theorem allConvertOfList (p : PyVal → Bool) : ∀ l : List PyVal,
    PyList.all (convertNativeList (PyList.ofList l)) p =
      l.all (fun v => p (_convert_to_native_types v))
  | [] => rfl
  | v :: rest => by
    show (p (_convert_to_native_types v) &&
      PyList.all (convertNativeList (PyList.ofList rest)) p) = _
    rw [allConvertOfList p rest]
    rfl

/-- The item count of the snapshot's `news` list. -/
def newsLen (snap : PyVal) : Nat :=
  match pyGetKey snap "news" with
  | .list xs => xs.length
  | _ => 0

/-- Every entry of the snapshot's `news` list is a dict carrying the
`title`, `publisher` and `link` keys. -/
def newsShapeOk (snap : PyVal) : Bool :=
  match pyGetKey snap "news" with
  | .list xs => PyList.all xs (fun it =>
      pyHasKey it "title" && pyHasKey it "publisher" && pyHasKey it "link")
  | _ => false

/-- C9: whenever `fetch_stock_data` succeeds, the snapshot carries price
data, fundamentals, company metadata, the trailing-90-day return/volatility
pair, and at most 5 news items each holding title, publisher and link — and
no numpy wrapper type survives anywhere in the snapshot. -/
theorem C9_snapshot_shape (ticker : String) (info : PyEntries) (histLen : Nat)
    (ret90 vol avg : Rat) (news : List PyEntries) (ts : String) (snap : PyVal)
    (hok : fetch_stock_data ticker info histLen ret90 vol avg news ts = .ok snap) :
    pyNoNumpy snap = true ∧
    pyHasKey snap "price_data" = true ∧
    pyHasKey snap "fundamentals" = true ∧
    pyHasKey snap "company_info" = true ∧
    pyHasKey snap "historical_data" = true ∧
    pyHasKey snap "news" = true ∧
    pyHasKey (pyGetKey snap "historical_data") "90_day_return" = true ∧
    pyHasKey (pyGetKey snap "historical_data") "volatility" = true ∧
    newsLen snap ≤ 5 ∧
    newsShapeOk snap = true := by
  unfold fetch_stock_data at hok
  split at hok
  · exact absurd hok (by simp)
  · have hsnap := (Except.ok.inj hok).symm
    subst hsnap
    refine ⟨pyNoNumpyConvert _, rfl, rfl, rfl, rfl, rfl, ?_, ?_, ?_, ?_⟩
    · cases h0 : histLen with
      | zero => cases h1 : decide (histLen > 1) <;> simp [h0] <;> rfl
      | succ m => cases m <;> rfl
    · cases h0 : histLen with
      | zero => rfl
      | succ m => cases m <;> rfl
    · show (convertNativeList (PyList.ofList ((news.take 5).map newsItemDict))).length ≤ 5
      rw [convertNativeListLength, ofListLength, List.length_map]
      exact (List.length_take_le 5 news)
    · show PyList.all (convertNativeList (PyList.ofList ((news.take 5).map newsItemDict)))
        (fun it => pyHasKey it "title" && pyHasKey it "publisher" && pyHasKey it "link") = true
      rw [allConvertOfList]
      rw [List.all_eq_true]
      intro x hx
      obtain ⟨a, _, rfl⟩ := List.mem_map.mp hx
      rfl

/-- A concrete provider `info` reply, for the C9 witness. -/
def wInfo : PyEntries := entriesOfList [
  ("regularMarketPrice", .npFloat 123),
  ("previousClose", .float 120),
  ("marketCap", .npInt 3000000000000),
  ("longName", .str "Apple Inc."),
  ("sector", .str "Technology")]

/-- A concrete provider news reply, for the C9 witness. -/
def wNews : List PyEntries := [entriesOfList [
  ("title", .str "Apple ships results"),
  ("publisher", .str "Newswire"),
  ("link", .str "https://example.com/a")]]

/-- The C9 witness snapshot: the value `fetch_stock_data` computes on the
concrete inputs. -/
def wSnap : PyVal :=
  match fetch_stock_data "aapl" wInfo 30 5 2 100 wNews "2026-10-12T00:00:00" with
  | .ok v => v
  | .error _ => .none

/-- Witness for C9 on concrete provider replies. -/
theorem C9_snapshot_shape_witness :
    pyNoNumpy wSnap = true ∧
    pyHasKey wSnap "price_data" = true ∧
    pyHasKey wSnap "fundamentals" = true ∧
    pyHasKey wSnap "company_info" = true ∧
    pyHasKey wSnap "historical_data" = true ∧
    pyHasKey wSnap "news" = true ∧
    pyHasKey (pyGetKey wSnap "historical_data") "90_day_return" = true ∧
    pyHasKey (pyGetKey wSnap "historical_data") "volatility" = true ∧
    newsLen wSnap ≤ 5 ∧
    newsShapeOk wSnap = true :=
  C9_snapshot_shape "aapl" wInfo 30 5 2 100 wNews "2026-10-12T00:00:00" wSnap rfl

/-! ## Strip/upper invariance of substring search (claims C4, C10) -/

theorem spaceToUpper (c : Char) (h : pyIsSpace c = true) : Char.toUpper c = c := by
  simp only [pyIsSpace, Bool.or_eq_true, beq_iff_eq] at h
  rcases h with (((((h | h) | h) | h) | h) | h) <;> subst h <;> decide

/-- A pattern without whitespace cannot start inside an all-whitespace
block: an occurrence in `a ++ r` with `a` all-whitespace lies in `r`. -/
theorem noSpaceInfixDropLeft (pat r : List Char) (hne : pat ≠ [])
    (hpat : ∀ c ∈ pat, pyIsSpace c = false) :
    ∀ a : List Char, (∀ c ∈ a, pyIsSpace c = true) → pat <:+: a ++ r → pat <:+: r := by
  intro a
  induction a with
  | nil =>
    intro _ h
    simpa using h
  | cons c a ih =>
    intro ha h
    obtain ⟨u, v, huv⟩ := h
    cases u with
    | nil =>
      cases pat with
      | nil => exact absurd rfl hne
      | cons pc pt =>
        simp only [List.nil_append, List.cons_append] at huv
        injection huv with h1 _
        have hfalse : pyIsSpace pc = false := hpat pc (List.mem_cons_self _ _)
        have htrue : pyIsSpace c = true := ha c (List.mem_cons_self _ _)
        rw [h1, htrue] at hfalse
        exact absurd hfalse (by simp)
    | cons u0 u =>
      simp only [List.cons_append] at huv
      injection huv with _ h2
      exact ih (fun x hx => ha x (List.mem_cons_of_mem _ hx)) ⟨u, v, h2⟩

/-- Mirror image: an occurrence in `r ++ b` with `b` all-whitespace lies in
`r`. -/
theorem noSpaceInfixDropRight (pat r : List Char) (hne : pat ≠ [])
    (hpat : ∀ c ∈ pat, pyIsSpace c = false) :
    ∀ b : List Char, (∀ c ∈ b, pyIsSpace c = true) → pat <:+: r ++ b → pat <:+: r := by
  intro b hb h
  have h1 : pat.reverse <:+: b.reverse ++ r.reverse := by
    have h2 := h.reverse
    rwa [List.reverse_append] at h2
  have h3 : pat.reverse <:+: r.reverse :=
    noSpaceInfixDropLeft pat.reverse r.reverse (by simpa using hne)
      (fun c hc => hpat c (List.mem_reverse.mp hc)) b.reverse
      (fun c hc => hb c (List.mem_reverse.mp hc)) h1
  exact List.reverse_infix.mp h3

/-- `strip` decomposes a string into an all-whitespace prefix, the stripped
core, and an all-whitespace suffix. -/
theorem pyStripDecomp (l : List Char) :
    ∃ a b, l = a ++ pyStripList l ++ b ∧
      (∀ c ∈ a, pyIsSpace c = true) ∧ (∀ c ∈ b, pyIsSpace c = true) := by
  refine ⟨l.takeWhile pyIsSpace,
    ((l.dropWhile pyIsSpace).reverse.takeWhile pyIsSpace).reverse, ?_, ?_, ?_⟩
  · simp only [pyStripList]
    conv_lhs => rw [← List.takeWhile_append_dropWhile pyIsSpace l]
    rw [List.append_assoc]
    congr 1
    have h2 := List.takeWhile_append_dropWhile pyIsSpace (l.dropWhile pyIsSpace).reverse
    have h3 := congrArg List.reverse h2
    rw [List.reverse_append, List.reverse_reverse] at h3
    exact h3.symm
  · exact fun c hc => List.mem_takeWhile_imp hc
  · exact fun c hc => List.mem_takeWhile_imp (List.mem_reverse.mp hc)

/-- A whitespace-free pattern occurs in `upper (strip s)` exactly when it
occurs in `upper s`: `strip` removes only leading/trailing whitespace, which
cannot take part in such an occurrence. -/
theorem upperStripContainsIff (pat : List Char) (s : String) (hne : pat ≠ [])
    (hpat : ∀ c ∈ pat, pyIsSpace c = false) :
    (pat <:+: (pyUpper (pyStrip s)).data) ↔ (pat <:+: (pyUpper s).data) := by
  obtain ⟨a, b, hdec, ha, hb⟩ := pyStripDecomp s.data
  have hud : (pyUpper s).data =
      a.map Char.toUpper ++ (pyStripList s.data).map Char.toUpper ++ b.map Char.toUpper := by
    show s.data.map Char.toUpper = _
    conv_lhs => rw [hdec]
    rw [List.map_append, List.map_append]
  have hsd : (pyUpper (pyStrip s)).data = (pyStripList s.data).map Char.toUpper := rfl
  rw [hsd, hud]
  constructor
  · intro h
    exact h.trans (List.infix_append _ _ _)
  · intro h
    have hA : ∀ c ∈ a.map Char.toUpper, pyIsSpace c = true := by
      intro c hc
      obtain ⟨x, hx, rfl⟩ := List.mem_map.mp hc
      rw [spaceToUpper x (ha x hx)]
      exact ha x hx
    have hB : ∀ c ∈ b.map Char.toUpper, pyIsSpace c = true := by
      intro c hc
      obtain ⟨x, hx, rfl⟩ := List.mem_map.mp hc
      rw [spaceToUpper x (hb x hx)]
      exact hb x hx
    rw [List.append_assoc] at h
    have h1 := noSpaceInfixDropLeft pat
      ((pyStripList s.data).map Char.toUpper ++ b.map Char.toUpper) hne hpat
      (a.map Char.toUpper) hA h
    exact noSpaceInfixDropRight pat ((pyStripList s.data).map Char.toUpper) hne hpat
      (b.map Char.toUpper) hB h1

/-- `strip` before `upper` does not change whether `APPROVE` occurs. -/
theorem stripUpperContainsApprove (input : String) :
    strContainsB (pyUpper (pyStrip input)) "APPROVE" = strContainsB (pyUpper input) "APPROVE" := by
  unfold strContainsB strContains
  exact decide_eq_decide.mpr (upperStripContainsIff "APPROVE".data input (by decide) (by decide))

/-- `strip` before `upper` does not change whether `REJECT` occurs. -/
theorem stripUpperContainsReject (input : String) :
    strContainsB (pyUpper (pyStrip input)) "REJECT" = strContainsB (pyUpper input) "REJECT" := by
  unfold strContainsB strContains
  exact decide_eq_decide.mpr (upperStripContainsIff "REJECT".data input (by decide) (by decide))

/-! ## Claim C4: the resume-input classification protocol -/

/-- C4: for every resume input — an input containing `APPROVE`
case-insensitively yields `user_decision = APPROVED`; otherwise one
containing `REJECT` case-insensitively yields `REJECTED`; any other input
yields `FEEDBACK` with the raw text preserved verbatim in the appended
confirmation; and in every case the raw input and a confirmation message
are the two entries appended to `messages`. -/
theorem C4_review_classification (s : AgentState) (input : String) :
    (if strContainsB (pyUpper input) "APPROVE" then
       (human_review_node s input).update.user_decision = some "APPROVED"
     else if strContainsB (pyUpper input) "REJECT" then
       (human_review_node s input).update.user_decision = some "REJECTED"
     else
       (human_review_node s input).update.user_decision = some "FEEDBACK" ∧
       (human_review_node s input).update.messages =
         [Msg.human input, Msg.ai ("Thank you for your feedback: " ++ input)]) ∧
    (∃ confirmation, (human_review_node s input).update.messages =
      [Msg.human input, Msg.ai confirmation]) := by
  have hA := stripUpperContainsApprove input
  have hR := stripUpperContainsReject input
  cases h1 : strContainsB (pyUpper input) "APPROVE" with
  | true =>
    have hc : strContainsB (pyUpper (pyStrip input)) "APPROVE" = true := hA.trans h1
    have hnode : human_review_node s input =
        { goto := .supervisor
          update := { user_decision := some "APPROVED"
                      messages := [.human input,
                        .ai "Thank you! The investment recommendation has been approved."] } } := by
      simp [human_review_node, hc]
    rw [hnode]
    exact ⟨by simp, ⟨_, rfl⟩⟩
  | false =>
    have hc : strContainsB (pyUpper (pyStrip input)) "APPROVE" = false := hA.trans h1
    cases h2 : strContainsB (pyUpper input) "REJECT" with
    | true =>
      have hc2 : strContainsB (pyUpper (pyStrip input)) "REJECT" = true := hR.trans h2
      have hnode : human_review_node s input =
          { goto := .supervisor
            update := { user_decision := some "REJECTED"
                        messages := [.human input,
                          .ai "Understood. The investment recommendation has been rejected."] } } := by
        simp [human_review_node, hc, hc2]
      rw [hnode]
      exact ⟨by simp, ⟨_, rfl⟩⟩
    | false =>
      have hc2 : strContainsB (pyUpper (pyStrip input)) "REJECT" = false := hR.trans h2
      have hnode : human_review_node s input =
          { goto := .supervisor
            update := { user_decision := some "FEEDBACK"
                        messages := [.human input,
                          .ai ("Thank you for your feedback: " ++ input)] } } := by
        simp [human_review_node, hc, hc2]
      rw [hnode]
      exact ⟨by simp, ⟨_, rfl⟩⟩

/-! ## Claim C10: APPROVE is checked before REJECT -/

/-- C10: an input whose stripped, upper-cased text contains both `APPROVE`
and `REJECT` classifies as `APPROVED` — never `REJECTED` or `FEEDBACK` —
because the `APPROVE` branch is evaluated first. -/
theorem C10_approve_over_reject (s : AgentState) (input : String)
    (hA : strContainsB (pyUpper (pyStrip input)) "APPROVE" = true)
    (_hR : strContainsB (pyUpper (pyStrip input)) "REJECT" = true) :
    (human_review_node s input).update.user_decision = some "APPROVED" ∧
    (human_review_node s input).update.user_decision ≠ some "REJECTED" ∧
    (human_review_node s input).update.user_decision ≠ some "FEEDBACK" := by
  have hnode : human_review_node s input =
      { goto := .supervisor
        update := { user_decision := some "APPROVED"
                    messages := [.human input,
                      .ai "Thank you! The investment recommendation has been approved."] } } := by
    simp [human_review_node, hA]
  rw [hnode]
  refine ⟨rfl, ?_, ?_⟩ <;> simp

/-- A state mid-review, for the C10 witness. -/
def wReviewState : AgentState :=
  { messages := [.human "Analyze stock MSFT"]
    mode := "single"
    ticker := some "MSFT"
    research_data := some (.dict (.cons "ticker" (.str "MSFT") .nil))
    analysis_summary := some "HOLD with medium confidence." }

/-- Witness for C10: an input mentioning both words is APPROVED. -/
theorem C10_approve_over_reject_witness :
    (human_review_node wReviewState " I approve, do not reject ").update.user_decision =
      some "APPROVED" ∧
    (human_review_node wReviewState " I approve, do not reject ").update.user_decision ≠
      some "REJECTED" ∧
    (human_review_node wReviewState " I approve, do not reject ").update.user_decision ≠
      some "FEEDBACK" :=
  C10_approve_over_reject wReviewState " I approve, do not reject "
    (by decide) (by decide)
